import Mathlib

/-!
# Shallow embedding of the windpowerlib core

This file embeds the windpowerlib source modules (`tools.py`, `wind_speed.py`,
`density.py`, `power_output.py`, `power_curves.py`, `wind_farm.py`,
`modelchain.py`) as Lean definitions and proves properties of them.

Conventions:
* Python floats are modelled as exact rationals (`ℚ`) where the code only uses
  field arithmetic and comparisons, and as reals (`ℝ`) where the code takes
  logarithms or real powers (`np.log`, `**`).
* pandas/numpy series are modelled as `List`s of values.
* A Python dictionary key that may be absent is modelled as an `Option` field;
  a key that is present but bound to `None` is the inner `none` of an
  `Option (Option _)` field.
* Python exceptions are modelled by the `PyErr` inductive; a function that can
  raise returns `Except PyErr _`.
-/

/-- The Python exception classes raised by the embedded code. -/
inductive PyErr : Type where
  /-- `ValueError` -/
  | valueErr      : PyErr
  /-- `TypeError` -/
  | typeErr       : PyErr
  /-- `KeyError` (missing dictionary key / column) -/
  | keyErr        : PyErr
  /-- `UnboundLocalError` (local variable referenced before assignment) -/
  | unboundLocal  : PyErr
  /-- invalid input detected by a helper (both candidates absent) -/
  | invalidInput  : PyErr
  deriving DecidableEq, Repr

/-! ## numpy interpolation

`np.interp(x, xp, fp, left, right)` for an increasing sequence of sample
points `xp`: values below `xp[0]` give `left`, values above `xp[-1]` give
`right`, values inside are linearly interpolated (exact sample points give the
corresponding `fp` value).  The sample points are modelled as a list of
`(xp, fp)` pairs. -/

/-- Linear interpolation through the segments of `pts`; `x` is assumed to be
`≥` the first sample point (the wrapper `np_interp` handles the `left` case);
beyond the last point the value is `r`. -/
def interpSegs {α : Type} [LinearOrderedField α] (x r : α) : List (α × α) → α
  | [] => r
  | [p] => if x ≤ p.1 then p.2 else r
  | p :: q :: rest =>
      if x ≤ p.1 then p.2
      else if x ≤ q.1 then p.2 + (q.2 - p.2) * (x - p.1) / (q.1 - p.1)
      else interpSegs x r (q :: rest)

/-- `np.interp` with explicit `left`/`right` fill values. -/
def np_interp {α : Type} [LinearOrderedField α] (x : α) (pts : List (α × α))
    (l r : α) : α :=
  match pts with
  | [] => r
  | p :: _ => if x < p.1 then l else interpSegs x r pts

/-- `p_values.index.max()`: the largest wind speed of a power curve table
(`0` for the empty table, which the library never feeds in). -/
def index_max {α : Type} [LinearOrderedField α] : List (α × α) → α
  | [] => 0
  | p :: rest => rest.foldl (fun acc q => max acc q.1) p.1

/-! ## power_output.py -/

/-- `power_output.tpo_through_P(p_values, v_wind)`.

The Python code first executes `v_wind[v_wind > v_max] = v_max`, an in-place
mutation of the caller's wind-speed series, and then evaluates
`np.interp(v_wind, p_values.index, p_values.P)`.  The first component of the
result models the caller's series after the call, the second component the
returned power values.  (`np.interp` without `left`/`right` uses `fp[0]` and
`fp[-1]` as fill values.) -/
def tpo_through_P {α : Type} [LinearOrderedField α] (p_values : List (α × α))
    (v_wind : List α) : List α × List α :=
  let v_max := index_max p_values
  let clamped := v_wind.map (fun v => if v_max < v then v_max else v)
  (clamped,
   clamped.map (fun v =>
     np_interp v p_values ((p_values.headD (0, 0)).2)
       ((p_values.getLastD (0, 0)).2)))

/-! ## tools.py -/

/-- `tools.select_closer_value(value_1, value_2, comp_value, corresp_1,
corresp_2)`.

`value_2`/`corresp_2` may be Python `None`.  The local `logging_string` is
modelled implicitly: in the single-candidate branch the Python code assigns it
only when `value_1 == comp_value`, so the final
`return_tuple(closest_value, corresp_value, logging_string)` raises
`UnboundLocalError` whenever `value_1 != comp_value` there. -/
def select_closer_value {β : Type} (value_1 : ℚ) (value_2 : Option ℚ)
    (comp_value : ℚ) (corresp_1 : β) (corresp_2 : Option β) :
    Except PyErr (ℚ × β × Option String) :=
  match value_2, corresp_2 with
  | some v2, some c2 =>
      let s :=
        if value_1 = comp_value then (value_1, some "(at hub height).")
        else if v2 = comp_value then (v2, some "(2) (at hub height).")
        else if |value_1 - comp_value| ≤ |v2 - comp_value| then
          (value_1, (none : Option String))
        else (v2, (none : Option String))
      let corresp_value := if s.1 = value_1 then corresp_1 else c2
      .ok (s.1, corresp_value, s.2)
  | _, _ =>
      -- closest_value = value_1, but logging_string is assigned only when
      -- value_1 == comp_value
      if value_1 = comp_value then
        .ok (value_1, corresp_1, some "(at hub height).")
      else
        .error .unboundLocal

/-! ## density.py -/

/-- `density.temperature_gradient(temp_air, temp_height, hub_height)`:
`temp_air - 0.0065 * (hub_height - temp_height)`, applied per series entry. -/
noncomputable def temperature_gradient (temp_air temp_height hub_height : ℝ) : ℝ :=
  temp_air - 0.0065 * (hub_height - temp_height)

/-- `density.rho_barometric(pressure, pressure_height, hub_height, temp_hub)`:
`(pressure / 100 - (hub_height - pressure_height) * 1 / 8) * 1.225 * 288.15 *
100 / (101330 * temp_hub)`, applied per series entry. -/
noncomputable def rho_barometric (pressure pressure_height hub_height temp_hub : ℝ) : ℝ :=
  (pressure / 100 - (hub_height - pressure_height) * 1 / 8) * 1.225 *
    288.15 * 100 / (101330 * temp_hub)

/-- `density.rho_ideal_gas(pressure, pressure_height, hub_height, temp_hub)`:
`(pressure / 100 - (hub_height - pressure_height) * 1 / 8) * 100 /
(287.058 * temp_hub)`, applied per series entry. -/
noncomputable def rho_ideal_gas (pressure pressure_height hub_height temp_hub : ℝ) : ℝ :=
  (pressure / 100 - (hub_height - pressure_height) * 1 / 8) * 100 /
    (287.058 * temp_hub)

/-- The input-independent factor relating the two density formulas:
`1.225 · 288.15 · 287.058 / 101330`. -/
noncomputable def rho_model_factor : ℝ := 1.225 * 288.15 * 287.058 / 101330

/-! ## wind_speed.py -/

/-- `wind_speed.logarithmic_wind_profile(v_wind, v_wind_height, hub_height,
z_0, obstacle_height)`.  Raises `ValueError` when
`0.7 * obstacle_height > v_wind_height`. -/
noncomputable def logarithmic_wind_profile (v_wind : List ℝ)
    (v_wind_height hub_height : ℚ) (z_0 : ℝ) (obstacle_height : ℚ) :
    Except PyErr (List ℝ) :=
  if 0.7 * obstacle_height > v_wind_height then .error .valueErr
  else .ok (v_wind.map (fun v =>
    v * Real.log (((hub_height : ℝ) - 0.7 * (obstacle_height : ℝ)) / z_0) /
      Real.log (((v_wind_height : ℝ) - 0.7 * (obstacle_height : ℝ)) / z_0)))

/-- `wind_speed.v_wind_hellman(v_wind, v_wind_height, hub_height, hellman_exp,
z_0)` — note the parameter order of the Python signature: the exponent comes
before the roughness length.

When `hellman_exp` is `None` the code computes `1 / np.log(hub_height / z_0)`
inside a bare `try`: a `None` roughness (`TypeError`) or a zero roughness
(`ZeroDivisionError`) is caught and replaced by the fallback exponent `1/7`. -/
noncomputable def v_wind_hellman (v_wind : List ℝ)
    (v_wind_height hub_height : ℚ) (hellman_exp : Option ℝ) (z_0 : Option ℝ) :
    List ℝ :=
  let exponent : ℝ :=
    match hellman_exp with
    | some e => e
    | none =>
      match z_0 with
      | none => 1 / 7
      | some z =>
          if z = 0 then 1 / 7
          else 1 / Real.log ((hub_height : ℝ) / z)
  v_wind.map (fun v => v * ((hub_height : ℝ) / (v_wind_height : ℝ)) ^ exponent)

/-! ## wind_farm.py -/

/-- The turbine attributes used by `ModelChain` and `WindFarm`.  Curves are
`(wind_speed, value)` tables. -/
structure WindTurbine : Type where
  turbine_name : String
  hub_height : ℚ
  rotor_diameter : ℚ
  nominal_power : ℚ
  cp_values : Option (List (ℚ × ℚ))
  p_values : Option (List (ℚ × ℚ))

/-- A wind-farm efficiency specification: a constant float, an efficiency
curve table, or `None`. -/
inductive FarmEfficiency : Type where
  | scalar (e : ℚ)                   : FarmEfficiency
  | table (curve : List (ℚ × ℚ))     : FarmEfficiency
  | absent                           : FarmEfficiency
  deriving DecidableEq

/-- `wind_farm.WindFarm`: specification plus the derived attributes that are
initialised to `None` in `__init__`. -/
structure WindFarm : Type where
  object_name : String
  wind_turbine_fleet : List (WindTurbine × ℕ)
  efficiency : FarmEfficiency
  hub_height : Option ℝ
  installed_power : Option ℚ
  power_curve : Option (List (ℚ × ℚ))
  power_output : Option (List ℝ)

/-- `WindFarm.calculate_installed_power`: the method body in the source is a
`TODO` stub — it performs no computation and returns `self` unchanged. -/
def calculate_installed_power (wf : WindFarm) : WindFarm := wf

/-- Modelled from the spec: the installed power computation that
`WindFarm.calculate_installed_power` is supposed to perform but which is
missing from the sources (the method body is a TODO stub).  Spec §4.3:
"Installed power: sum of nominal_power × count over the fleet". -/
def installed_power_from_fleet (fleet : List (WindTurbine × ℕ)) : ℚ :=
  (fleet.map (fun t => t.1.nominal_power * (t.2 : ℚ))).sum

/-! ## power_curves.py -/

/-- pandas `Series.interpolate with the index method,` restricted to the known points
`known` (assumed index-sorted), evaluated at index `x`: a leading gap stays
NaN (`none`), interior gaps are linearly interpolated, and a trailing gap is
filled with the last valid value. -/
def index_interpolate (known : List (ℚ × ℚ)) (x : ℚ) : Option ℚ :=
  match known with
  | [] => none
  | p :: _ =>
      if x < p.1 then none
      else some (np_interp x known 0 ((known.getLastD (0, 0)).2))

/-- The `power_efficiency_curve` branch of `wake_losses_to_power_curve`:
outer-join the power curve and the efficiency curve on wind speed, interpolate
the efficiency column by index, multiply, and drop rows without a valid
product (`dropna`). -/
def reduce_power_by_efficiency_curve (ws ps : List ℚ)
    (eff_curve : List (ℚ × ℚ)) : List ℚ × List ℚ :=
  let idx := ((ws ++ eff_curve.map Prod.fst).dedup).mergeSort (· ≤ ·)
  let rows := idx.filterMap (fun x =>
    match ((ws.zip ps).find? (fun q => q.1 = x)), index_interpolate eff_curve x with
    | some q, some e => some (x, q.2 * e)
    | _, _ => none)
  (rows.map Prod.fst, rows.map Prod.snd)

/-- `power_curves.wake_losses_to_power_curve(power_curve_wind_speeds,
power_curve_values, wake_losses_method, wind_farm_efficiency)`.

`constant_efficiency` requires a float efficiency (`TypeError` otherwise) and
multiplies every power value by it; `power_efficiency_curve` requires a curve
table (`TypeError` otherwise); any other method name raises `ValueError`.
The result models the returned DataFrame's `wind_speed` and `power` columns. -/
def wake_losses_to_power_curve (power_curve_wind_speeds : List ℚ)
    (power_curve_values : List ℚ) (wake_losses_method : String)
    (wind_farm_efficiency : FarmEfficiency) :
    Except PyErr (List ℚ × List ℚ) :=
  if wake_losses_method = "constant_efficiency" then
    match wind_farm_efficiency with
    | .scalar e =>
        .ok (power_curve_wind_speeds, power_curve_values.map (fun p => p * e))
    | _ => .error .typeErr
  else if wake_losses_method = "power_efficiency_curve" then
    match wind_farm_efficiency with
    | .table c =>
        .ok (reduce_power_by_efficiency_curve power_curve_wind_speeds
          power_curve_values c)
    | _ => .error .typeErr
  else .error .valueErr

/-! ## power_output.py (density-corrected interpolation) -/

/-- The density-shifted wind-speed column used by `interpolate_P_curve`:
each curve wind speed `v_std` is multiplied by
`(1.225 / rho_hub) ** p(v_std)`, where the exponent is
`np.interp(v_std, [7.5, 12.5], [1/3, 2/3])`. -/
noncomputable def density_corrected_speeds (p_values : List (ℚ × ℚ))
    (rho : ℝ) : List (ℝ × ℝ) :=
  p_values.map (fun pt =>
    ((pt.1 : ℝ) * ((1.225 / rho) ^
        ((np_interp pt.1 [((7.5 : ℚ), 1/3), ((12.5 : ℚ), 2/3)] (1/3) (2/3) : ℚ) : ℝ)),
     (pt.2 : ℝ)))

/-- `power_output.interpolate_P_curve(v_wind, rho_hub, p_values)`:
`np.interp(v_wind[i], shifted_wind_speeds(rho_hub[i]), p_values.P,
left=0, right=0)` for each series position `i`. -/
noncomputable def interpolate_P_curve (v_wind rho_hub : List ℝ)
    (p_values : List (ℚ × ℚ)) : List ℝ :=
  (List.range v_wind.length).map (fun i =>
    np_interp (v_wind.getD i 0)
      (density_corrected_speeds p_values (rho_hub.getD i 0)) 0 0)

/-- Modelled from the spec: `power_output.power_coefficient_curve` is called by
`ModelChain.turbine_power_output` but is not among the source files (only the
legacy `tpo_through_cp` is).  Spec §4.5: `P = ⅛·ρ_hub·d_rotor²·π·v³·cp(v)`
with `cp(v)` linearly interpolated from the cp curve and constant extrapolation
at the boundary values. -/
noncomputable def power_coefficient_curve (wind_speed : List ℝ)
    (cp_values : List (ℚ × ℚ)) (rotor_diameter : ℚ) (density : List ℝ)
    (_density_corr : Bool) : List ℝ :=
  List.zipWith (fun v d =>
    1 / 8 * d * (rotor_diameter : ℝ) ^ 2 * Real.pi * v ^ 3 *
      np_interp v (cp_values.map (fun q => ((q.1 : ℝ), (q.2 : ℝ))))
        ((cp_values.headD (0, 0)).2 : ℝ) ((cp_values.getLastD (0, 0)).2 : ℝ))
    wind_speed density

/-- Modelled from the spec: `power_output.power_curve` is called by
`ModelChain.turbine_power_output` but is not among the source files (only the
legacy `tpo_through_P`/`interpolate_P_curve` are).  Spec §4.5: direct linear
interpolation of P(v) with clamping above the curve maximum, and, when density
correction is requested, the density-corrected interpolation instead. -/
noncomputable def power_curve (wind_speed : List ℝ) (p_values : List (ℚ × ℚ))
    (density : Option (List ℝ)) (density_corr : Bool) : List ℝ :=
  if density_corr then
    interpolate_P_curve wind_speed (density.getD []) p_values
  else
    (tpo_through_P (p_values.map (fun q => ((q.1 : ℝ), (q.2 : ℝ))))
      wind_speed).2

/-! ## modelchain.py -/

/-- The weather input of `ModelChain.run_model`: a mapping from variable names
to time series.  `v_wind_2`, `temp_air_2` and `z0` are optional keys (outer
`Option`) whose value may additionally be Python `None` (inner `none`). -/
structure Weather : Type where
  v_wind : List ℝ
  v_wind_2 : Option (Option (List ℝ))
  temp_air : List ℝ
  temp_air_2 : Option (Option (List ℝ))
  pressure : List ℝ
  z0 : Option (Option ℝ)

/-- The `data_height` input of `ModelChain.run_model`: measurement heights for
the weather variables.  `v_wind_2`/`temp_air_2` are optional keys whose value
may be Python `None`. -/
structure DataHeight : Type where
  v_wind : ℚ
  v_wind_2 : Option (Option ℚ)
  temp_air : ℚ
  temp_air_2 : Option (Option ℚ)
  pressure : ℚ

/-- `modelchain.ModelChain.__init__`: configuration plus the `power_output`
result attribute (initially `None`). -/
structure ModelChain : Type where
  wind_turbine : WindTurbine
  obstacle_height : ℚ
  wind_model : String
  rho_model : String
  power_output_model : String
  density_corr : Bool
  hellman_exp : Option ℝ
  power_output : Option (List ℝ)

/-- Modelled from the spec: `tools.smallest_difference` is called by
`ModelChain.v_wind_hub`/`rho_hub` but is not among the source files (the
`tools.py` present only has the older `select_closer_value`).  Spec §4.1:
given two `(height, series)` candidates and a target height, return the
candidate whose height is closest to the target, preferring an exact match;
if only one candidate exists return it unconditionally; if both are
absent/null fail with an invalid-input error. -/
def smallest_difference (height_1 : Option ℚ) (series_1 : Option (List ℝ))
    (height_2 : Option ℚ) (series_2 : Option (List ℝ)) (target : ℚ) :
    Except PyErr (ℚ × List ℝ) :=
  match height_1, series_1, height_2, series_2 with
  | some h1, some s1, some h2, some s2 =>
      if h1 = target then .ok (h1, s1)
      else if h2 = target then .ok (h2, s2)
      else if |h1 - target| ≤ |h2 - target| then .ok (h1, s1)
      else .ok (h2, s2)
  | some h1, some s1, _, _ => .ok (h1, s1)
  | _, _, some h2, some s2 => .ok (h2, s2)
  | _, _, _, _ => .error .invalidInput

/-- The model dispatch of `ModelChain.v_wind_hub` after the closer wind-speed
series has been selected: use the series directly when its height is the hub
height, otherwise apply the configured wind-speed model.  Accessing the
missing `z0` key raises `KeyError`; a `None` roughness in the logarithmic
profile raises `TypeError` inside `np.log`. -/
noncomputable def v_wind_hub_core (mc : ModelChain) (w : Weather)
    (v_wind_height : ℚ) (v_wind_closest : List ℝ) : Except PyErr (List ℝ) :=
  if v_wind_height = mc.wind_turbine.hub_height then .ok v_wind_closest
  else if mc.wind_model = "logarithmic" then
    match w.z0 with
    | none => .error .keyErr
    | some none => .error .typeErr
    | some (some z) =>
        logarithmic_wind_profile v_wind_closest v_wind_height
          mc.wind_turbine.hub_height z mc.obstacle_height
  else if mc.wind_model = "hellman" then
    match w.z0 with
    | none => .error .keyErr
    | some z0_value =>
        -- the Python call site passes `weather[z0]` and `self.hellman_exp`
        -- positionally, so `weather[z0]` lands in the `hellman_exp`
        -- parameter and `self.hellman_exp` in the `z_0` parameter
        .ok (v_wind_hellman v_wind_closest v_wind_height
          mc.wind_turbine.hub_height z0_value mc.hellman_exp)
  else .error .valueErr

/-- `ModelChain.v_wind_hub(weather, data_height)`.  The first two components
model the caller's `weather` and `data_height` dictionaries after the call
(the method inserts a `None`-valued `v_wind_2` key into both when it is
missing), the third the returned series or the raised exception. -/
noncomputable def v_wind_hub (mc : ModelChain) (w : Weather) (dh : DataHeight) :
    Weather × DataHeight × Except PyErr (List ℝ) :=
  match w.v_wind_2 with
  | none =>
      let w' := { w with v_wind_2 := some none }
      let dh' := { dh with v_wind_2 := some none }
      (w', dh', v_wind_hub_core mc w' dh.v_wind w.v_wind)
  | some v2 =>
      match dh.v_wind_2 with
      | none => (w, dh, .error .keyErr)
      | some h2 =>
          match smallest_difference (some dh.v_wind) (some w.v_wind) h2 v2
              mc.wind_turbine.hub_height with
          | .error e => (w, dh, .error e)
          | .ok (h, s) => (w, dh, v_wind_hub_core mc w h s)

/-- The density dispatch of `ModelChain.rho_hub` after the closer temperature
series has been selected: temperature gradient to hub height unless already
there, then the configured density model (`ValueError` for any other name). -/
noncomputable def rho_hub_core (mc : ModelChain) (w : Weather) (dh : DataHeight)
    (temperature_height : ℚ) (temperature_closest : List ℝ) :
    Except PyErr (List ℝ) :=
  let temp_hub :=
    if temperature_height = mc.wind_turbine.hub_height then temperature_closest
    else temperature_closest.map (fun t =>
      temperature_gradient t (temperature_height : ℝ)
        (mc.wind_turbine.hub_height : ℝ))
  if mc.rho_model = "barometric" then
    .ok (List.zipWith (fun p t =>
      rho_barometric p (dh.pressure : ℝ) (mc.wind_turbine.hub_height : ℝ) t)
      w.pressure temp_hub)
  else if mc.rho_model = "ideal_gas" then
    .ok (List.zipWith (fun p t =>
      rho_ideal_gas p (dh.pressure : ℝ) (mc.wind_turbine.hub_height : ℝ) t)
      w.pressure temp_hub)
  else .error .valueErr

/-- `ModelChain.rho_hub(weather, data_height)`.  The first two components
model the caller's dictionaries after the call (a `None`-valued `temp_air_2`
key is inserted into both when it is missing). -/
noncomputable def rho_hub (mc : ModelChain) (w : Weather) (dh : DataHeight) :
    Weather × DataHeight × Except PyErr (List ℝ) :=
  match w.temp_air_2 with
  | none =>
      let w' := { w with temp_air_2 := some none }
      let dh' := { dh with temp_air_2 := some none }
      (w', dh', rho_hub_core mc w' dh' dh.temp_air w.temp_air)
  | some t2 =>
      match dh.temp_air_2 with
      | none => (w, dh, .error .keyErr)
      | some h2 =>
          match smallest_difference (some dh.temp_air) (some w.temp_air) h2 t2
              mc.wind_turbine.hub_height with
          | .error e => (w, dh, .error e)
          | .ok (h, s) => (w, dh, rho_hub_core mc w dh h s)

/-- `ModelChain.turbine_power_output(wind_speed, density)`: dispatch on
`power_output_model`, raising `TypeError` when the required curve is missing
and `ValueError` for an unknown model name. -/
noncomputable def turbine_power_output (mc : ModelChain) (wind_speed : List ℝ)
    (density : Option (List ℝ)) : Except PyErr (List ℝ) :=
  if mc.power_output_model = "cp_values" then
    match mc.wind_turbine.cp_values with
    | none => .error .typeErr
    | some cpv =>
        .ok (power_coefficient_curve wind_speed cpv
          mc.wind_turbine.rotor_diameter (density.getD []) mc.density_corr)
  else if mc.power_output_model = "p_values" then
    match mc.wind_turbine.p_values with
    | none => .error .typeErr
    | some pv => .ok (power_curve wind_speed pv density mc.density_corr)
  else .error .valueErr

/-- The final statement of `ModelChain.run_model`:
`self.power_output = self.turbine_power_output(wind_speed, density)` — on
success the chain's `power_output` is overwritten, on an exception the chain
is unchanged. -/
noncomputable def apply_power_stage (mc : ModelChain) (wind_speed : List ℝ)
    (w2 : Weather) (dh2 : DataHeight) (density : Option (List ℝ)) :
    ModelChain × Weather × DataHeight × Option PyErr :=
  match turbine_power_output mc wind_speed density with
  | .error e => (mc, w2, dh2, some e)
  | .ok out => ({ mc with power_output := some out }, w2, dh2, none)

/-- The remainder of `ModelChain.run_model` after the wind-speed stage has
succeeded: the `density` expression (which skips `rho_hub` exactly when
`power_output_model` is `p_values` and `density_corr` is `False`) followed by
the final assignment stage. -/
noncomputable def run_model_rest (mc : ModelChain) (wind_speed : List ℝ)
    (w1 : Weather) (dh1 : DataHeight) :
    ModelChain × Weather × DataHeight × Option PyErr :=
  if mc.power_output_model = "p_values" ∧ mc.density_corr = false then
    apply_power_stage mc wind_speed w1 dh1 none
  else
    match rho_hub mc w1 dh1 with
    | (w2, dh2, .error e) => (mc, w2, dh2, some e)
    | (w2, dh2, .ok density) =>
      apply_power_stage mc wind_speed w2 dh2 (some density)

/-- `ModelChain.run_model(weather, data_height)`.  The only attribute the
method writes is `self.power_output`, in its final statement; the result
models `(self, weather, data_height, raised exception)` after the call, so on
any raised exception the chain is returned unchanged. -/
noncomputable def run_model (mc : ModelChain) (w : Weather) (dh : DataHeight) :
    ModelChain × Weather × DataHeight × Option PyErr :=
  match v_wind_hub mc w dh with
  | (w1, dh1, .error e) => (mc, w1, dh1, some e)
  | (w1, dh1, .ok wind_speed) => run_model_rest mc wind_speed w1 dh1

/-! ## concrete inputs used by the claim witnesses -/

/-- A small turbine specification (hub height 20 m) with a power curve. -/
def demo_turbine : WindTurbine :=
  { turbine_name := "demo"
    hub_height := 20
    rotor_diameter := 100
    nominal_power := 3000
    cp_values := none
    p_values := some [(1, 10), (2, 40)] }

/-- A `ModelChain` configured with the Hellman wind model and `hellman_exp`
left at its default `None`. -/
def hellman_chain : ModelChain :=
  { wind_turbine := demo_turbine
    obstacle_height := 0
    wind_model := "hellman"
    rho_model := "barometric"
    power_output_model := "p_values"
    density_corr := false
    hellman_exp := none
    power_output := none }

/-- A `ModelChain` with an invalid `wind_model`, used to exercise the error
path of `run_model`; its `power_output` holds a previously stored result. -/
def bogus_chain : ModelChain :=
  { wind_turbine := demo_turbine
    obstacle_height := 0
    wind_model := "bogus"
    rho_model := "barometric"
    power_output_model := "p_values"
    density_corr := false
    hellman_exp := none
    power_output := some [123] }

/-- Weather input with a roughness length of 1 m and no second measurement
heights. -/
def demo_weather : Weather :=
  { v_wind := [10]
    v_wind_2 := none
    temp_air := [280]
    temp_air_2 := none
    pressure := [101325]
    z0 := some (some 1) }

/-- Measurement heights for `demo_weather`: wind speed at 10 m. -/
def demo_heights : DataHeight :=
  { v_wind := 10
    v_wind_2 := none
    temp_air := 2
    temp_air_2 := none
    pressure := 0 }

/-- A two-type turbine fleet: 3 × 3000 W and 1 × 7500 W. -/
def demo_fleet : List (WindTurbine × ℕ) :=
  [({ demo_turbine with nominal_power := 3000 }, 3),
   ({ demo_turbine with nominal_power := 7500 }, 1)]

/-- A wind farm over `demo_fleet`, as constructed by `WindFarm.__init__`
(derived attributes initialised to `None`). -/
def demo_farm : WindFarm :=
  { object_name := "demo farm"
    wind_turbine_fleet := demo_fleet
    efficiency := .absent
    hub_height := none
    installed_power := none
    power_curve := none
    power_output := none }

/-! ### helper lemmas about `np_interp` and `index_max` -/

/-- Ordering of a curve table by its wind-speed column. -/
def fstLt {α : Type} [LinearOrderedField α] (p q : α × α) : Prop := p.1 < q.1

instance {α : Type} [LinearOrderedField α] : DecidableRel (@fstLt α _) :=
  fun p q => inferInstanceAs (Decidable (p.1 < q.1))

theorem interpSegs_of_all_lt {α : Type} [LinearOrderedField α] (x r : α) :
    ∀ (pts : List (α × α)), (∀ p ∈ pts, p.1 < x) → interpSegs x r pts = r := by
  intro pts
  induction pts with
  | nil => intro _; rfl
  | cons hd tl ih =>
    intro h
    have hx1 : hd.1 < x := h hd (List.mem_cons_self _ _)
    match tl with
    | [] =>
      simp only [interpSegs, if_neg (not_le.mpr hx1)]
    | q :: rest =>
      have hx2 : q.1 < x := h q (by simp)
      simp only [interpSegs, if_neg (not_le.mpr hx1), if_neg (not_le.mpr hx2)]
      exact ih (fun p hp => h p (List.mem_cons_of_mem _ hp))

theorem np_interp_of_all_lt {α : Type} [LinearOrderedField α] (x l r : α)
    (pts : List (α × α)) (h : ∀ p ∈ pts, p.1 < x) :
    np_interp x pts l r = r := by
  match pts with
  | [] => rfl
  | p :: tl =>
    have hx1 : p.1 < x := h p (List.mem_cons_self _ _)
    simp only [np_interp, if_neg (not_lt.mpr hx1.le)]
    exact interpSegs_of_all_lt x r _ h

theorem np_interp_of_all_gt {α : Type} [LinearOrderedField α] (x l r : α)
    (pts : List (α × α)) (hne : pts ≠ []) (h : ∀ p ∈ pts, x < p.1) :
    np_interp x pts l r = l := by
  match pts with
  | [] => exact absurd rfl hne
  | p :: tl =>
    have hx1 : x < p.1 := h p (List.mem_cons_self _ _)
    simp only [np_interp, if_pos hx1]

/-- For a strictly increasing curve table, `index_max` is the wind speed of the
last row. -/
theorem index_max_eq_getLast {α : Type} [LinearOrderedField α] :
    ∀ (pts : List (α × α)) (hne : pts ≠ []), List.Pairwise fstLt pts →
      index_max pts = (pts.getLast hne).1 := by
  intro pts
  match pts with
  | [] => intro hne; exact absurd rfl hne
  | p :: rest =>
    intro hne hp
    show rest.foldl (fun acc q => max acc q.1) p.1 = ((p :: rest).getLast hne).1
    induction rest generalizing p with
    | nil => rfl
    | cons q t ih =>
      have hpq : p.1 < q.1 := (List.pairwise_cons.mp hp).1 q (List.mem_cons_self _ _)
      have hq : List.Pairwise fstLt (q :: t) := (List.pairwise_cons.mp hp).2
      have h1 : (max p.1 q.1) = q.1 := max_eq_right hpq.le
      calc (q :: t).foldl (fun acc r => max acc r.1) p.1
          = t.foldl (fun acc r => max acc r.1) (max p.1 q.1) := by
            rw [List.foldl_cons]
        _ = t.foldl (fun acc r => max acc r.1) q.1 := by rw [h1]
        _ = ((q :: t).getLast (by simp)).1 := ih q (by simp) hq
        _ = ((p :: q :: t).getLast hne).1 := by
            rw [List.getLast_cons_cons]

/-- For a strictly increasing curve table, the head's wind speed is at most the
last row's wind speed. -/
theorem fst_head_le_getLast {α : Type} [LinearOrderedField α]
    (p : α × α) (rest : List (α × α)) (hp : List.Pairwise fstLt (p :: rest)) :
    p.1 ≤ ((p :: rest).getLast (by simp)).1 := by
  match rest with
  | [] => exact le_refl _
  | q :: t =>
    have hmem : (q :: t).getLast (by simp) ∈ q :: t := List.getLast_mem _
    have := (List.pairwise_cons.mp hp).1 _ hmem
    rw [List.getLast_cons_cons]
    exact le_of_lt this

/-- Interpolating a strictly increasing curve table at its last wind speed
yields the last power value. -/
theorem interpSegs_at_getLast {α : Type} [LinearOrderedField α] (r : α) :
    ∀ (pts : List (α × α)) (hne : pts ≠ []), List.Pairwise fstLt pts →
      interpSegs (pts.getLast hne).1 r pts = (pts.getLast hne).2 := by
  intro pts
  induction pts with
  | nil => intro hne; exact absurd rfl hne
  | cons hd tl ih =>
    intro hne hp
    match tl with
    | [] =>
      show (if hd.1 ≤ hd.1 then hd.2 else r) = hd.2
      rw [if_pos (le_refl hd.1)]
    | q :: rest =>
      have hlast : ((hd :: q :: rest).getLast hne) =
          ((q :: rest).getLast (by simp)) := List.getLast_cons_cons ..
      have htail : List.Pairwise fstLt (q :: rest) :=
        (List.pairwise_cons.mp hp).2
      have hx1lt : hd.1 < ((q :: rest).getLast (by simp)).1 := by
        have hmem : (q :: rest).getLast (by simp) ∈ q :: rest :=
          List.getLast_mem _
        exact (List.pairwise_cons.mp hp).1 _ hmem
      rw [hlast]
      match rest with
      | [] =>
        have hq : ((q :: []).getLast (by simp)) = q := rfl
        rw [hq] at hx1lt ⊢
        show (if q.1 ≤ hd.1 then hd.2
          else if q.1 ≤ q.1 then hd.2 + (q.2 - hd.2) * (q.1 - hd.1) / (q.1 - hd.1)
          else interpSegs q.1 r [q]) = q.2
        rw [if_neg (not_le.mpr hx1lt), if_pos (le_refl q.1)]
        have hne' : q.1 - hd.1 ≠ 0 := sub_ne_zero.mpr (ne_of_gt hx1lt)
        field_simp
      | s :: t =>
        have hx2lt : q.1 < ((q :: s :: t).getLast (by simp)).1 := by
          rw [List.getLast_cons_cons]
          have hmem : (s :: t).getLast (by simp) ∈ s :: t := List.getLast_mem _
          exact (List.pairwise_cons.mp htail).1 _ hmem
        show (if ((q :: s :: t).getLast (by simp)).1 ≤ hd.1 then hd.2
          else if ((q :: s :: t).getLast (by simp)).1 ≤ q.1 then
            hd.2 + (q.2 - hd.2) * (((q :: s :: t).getLast (by simp)).1 - hd.1) / (q.1 - hd.1)
          else interpSegs ((q :: s :: t).getLast (by simp)).1 r (q :: s :: t)) =
            ((q :: s :: t).getLast (by simp)).2
        rw [if_neg (not_le.mpr hx1lt), if_neg (not_le.mpr hx2lt)]
        exact ih (by simp) htail

theorem np_interp_at_getLast {α : Type} [LinearOrderedField α] (l r : α)
    (pts : List (α × α)) (hne : pts ≠ []) (hp : List.Pairwise fstLt pts) :
    np_interp (pts.getLast hne).1 pts l r = (pts.getLast hne).2 := by
  match pts with
  | [] => exact absurd rfl hne
  | p :: rest =>
    have hle : p.1 ≤ ((p :: rest).getLast hne).1 := fst_head_le_getLast p rest hp
    show (if ((p :: rest).getLast hne).1 < p.1 then l else _) = _
    rw [if_neg (not_lt.mpr hle)]
    exact interpSegs_at_getLast r (p :: rest) hne hp

/-! ## Claim theorems -/

/-- C2: when the second candidate is absent, `select_closer_value` is supposed
to return the first candidate unconditionally; the code does so only when
`value_1` equals the comparison value, and raises `UnboundLocalError`
otherwise (the local `logging_string` is never assigned in that path).  At
`value_1 = 10`, `value_2 = None`, `comp_value = 135`, `corresp_1 = 5.0`,
`corresp_2 = None` the call fails instead of returning `(10, 5.0)`. -/
theorem claim_C2_select_closer_value_single_candidate :
    select_closer_value (10 : ℚ) none 135 (5 : ℚ) none = .error .unboundLocal ∧
    select_closer_value (135 : ℚ) none 135 (5 : ℚ) none =
      .ok (135, 5, some "(at hub height).") := by
  constructor <;> rfl

/-- C3: `WindFarm.calculate_installed_power` is a TODO stub that returns the
farm unchanged, leaving `installed_power` at `None`; the spec's computation
(sum of `nominal_power × count`) would give 16500 W on the example fleet of
3 × 3000 W and 1 × 7500 W. -/
theorem claim_C3_installed_power_stub :
    (calculate_installed_power demo_farm).installed_power = none ∧
    installed_power_from_fleet demo_farm.wind_turbine_fleet = 16500 := by
  constructor
  · rfl
  · norm_num [installed_power_from_fleet, demo_farm, demo_fleet]

/-- C6: `wake_losses_to_power_curve` with method `constant_efficiency` keeps
the wind-speed column unchanged and multiplies every power value by the scalar
efficiency; a non-scalar efficiency (curve table or `None`) raises
`TypeError`. -/
theorem claim_C6_wake_losses_constant_efficiency (ws ps : List ℚ) (e : ℚ)
    (c : List (ℚ × ℚ)) :
    wake_losses_to_power_curve ws ps "constant_efficiency" (.scalar e) =
      .ok (ws, ps.map (fun p => p * e)) ∧
    wake_losses_to_power_curve ws ps "constant_efficiency" (.table c) =
      .error .typeErr ∧
    wake_losses_to_power_curve ws ps "constant_efficiency" .absent =
      .error .typeErr := by
  refine ⟨rfl, rfl, rfl⟩

/-- C4: evaluating `tpo_through_P` at a wind speed strictly above the curve's
maximum wind speed returns the power value at that maximum (the entry is
clamped to the maximum and the interpolation evaluates at the last curve
point). -/
theorem claim_C4_power_curve_clamps_above_max (pts : List (ℚ × ℚ))
    (vs : List ℚ) (i : ℕ) (v : ℚ) (hne : pts ≠ [])
    (hinc : List.Pairwise fstLt pts) (hv : vs[i]? = some v)
    (hgt : index_max pts < v) :
    (tpo_through_P pts vs).2[i]? = some ((pts.getLast hne).2) := by
  have hmax : index_max pts = (pts.getLast hne).1 :=
    index_max_eq_getLast pts hne hinc
  simp only [tpo_through_P]
  rw [List.getElem?_map, List.getElem?_map, hv]
  simp only [Option.map_some', if_pos hgt]
  rw [hmax, np_interp_at_getLast _ _ pts hne hinc]

/-- Witness for C4 at the curve `[(1, 10), (2, 40)]` and wind speed 5. -/
theorem claim_C4_witness :
    ([((1 : ℚ), 10), (2, 40)] ≠ ([] : List (ℚ × ℚ))) ∧
    List.Pairwise fstLt [((1 : ℚ), 10), (2, 40)] ∧
    ([(5 : ℚ)][0]? = some 5) ∧
    index_max [((1 : ℚ), 10), (2, 40)] < 5 ∧
    (tpo_through_P [((1 : ℚ), 10), (2, 40)] [5]).2[0]? = some 40 :=
  ⟨by decide, by decide, rfl, by decide,
    claim_C4_power_curve_clamps_above_max [((1 : ℚ), 10), (2, 40)] [5] 0 5
      (by decide) (by decide) rfl (by decide)⟩

/-- C8: `tpo_through_P` overwrites, in the caller's wind-speed series, every
entry above the curve's maximum wind speed with that maximum, and leaves
entries at or below the maximum unchanged (the first component of the embedded
result models the caller's series after the call). -/
theorem claim_C8_tpo_through_P_mutates_input (pts : List (ℚ × ℚ))
    (vs : List ℚ) (i : ℕ) (v : ℚ) (hv : vs[i]? = some v) :
    (index_max pts < v →
      (tpo_through_P pts vs).1[i]? = some (index_max pts)) ∧
    (v ≤ index_max pts → (tpo_through_P pts vs).1[i]? = some v) := by
  constructor <;> intro h
  · simp only [tpo_through_P]
    rw [List.getElem?_map, hv]
    simp [if_pos h]
  · simp only [tpo_through_P]
    rw [List.getElem?_map, hv]
    simp [if_neg (not_lt.mpr h)]

/-- Witness for C8: the entry 5 above the maximum 2 is overwritten with 2. -/
theorem claim_C8_witness :
    ([(5 : ℚ)][0]? = some 5) ∧ index_max [((1 : ℚ), 10), (2, 40)] < 5 ∧
    (tpo_through_P [((1 : ℚ), 10), (2, 40)] [5]).1[0]? =
      some (index_max [((1 : ℚ), 10), (2, 40)]) :=
  ⟨rfl, by decide,
    (claim_C8_tpo_through_P_mutates_input [((1 : ℚ), 10), (2, 40)] [5] 0 5
      rfl).1 (by decide)⟩

/-- C7: over the typical atmospheric range (pressure 950–1050 hPa,
temperature 250–300 K, equal pressure and hub heights) `rho_barometric` is the
input-independent constant `1.225·288.15·287.058/101330` times
`rho_ideal_gas`, so the two agree to a relative tolerance below 2 %. -/
theorem claim_C7_rho_models_agree (p hp hh T : ℝ)
    (hplo : 95000 ≤ p) (_hphi : p ≤ 105000)
    (hTlo : 250 ≤ T) (_hThi : T ≤ 300) (hheq : hp = hh) :
    rho_barometric p hp hh T = rho_model_factor * rho_ideal_gas p hp hh T ∧
    |rho_barometric p hp hh T - rho_ideal_gas p hp hh T| <
      2 / 100 * rho_ideal_gas p hp hh T := by
  subst hheq
  have hT0 : (0 : ℝ) < T := by linarith
  have hfac : rho_barometric p hp hp T =
      rho_model_factor * rho_ideal_gas p hp hp T := by
    unfold rho_barometric rho_ideal_gas rho_model_factor
    field_simp
    ring
  refine ⟨hfac, ?_⟩
  have hri : 0 < rho_ideal_gas p hp hp T := by
    unfold rho_ideal_gas
    have hnum : 0 < p / 100 - (hp - hp) * 1 / 8 := by nlinarith
    positivity
  rw [hfac]
  have hdiff : rho_model_factor * rho_ideal_gas p hp hp T -
      rho_ideal_gas p hp hp T =
      (rho_model_factor - 1) * rho_ideal_gas p hp hp T := by ring
  rw [hdiff, abs_mul, abs_of_pos hri]
  have habs : |rho_model_factor - 1| = 1 - rho_model_factor := by
    rw [abs_of_neg]
    · ring
    · unfold rho_model_factor; norm_num
  rw [habs]
  have hlt : 1 - rho_model_factor < 2 / 100 := by
    unfold rho_model_factor; norm_num
  exact mul_lt_mul_of_pos_right hlt hri

/-- Witness for C7 at 1000 hPa and 288 K. -/
theorem claim_C7_witness :
    ((95000 : ℝ) ≤ 100000) ∧ ((100000 : ℝ) ≤ 105000) ∧
    ((250 : ℝ) ≤ 288) ∧ ((288 : ℝ) ≤ 300) ∧
    |rho_barometric 100000 10 10 288 - rho_ideal_gas 100000 10 10 288| <
      2 / 100 * rho_ideal_gas 100000 10 10 288 :=
  ⟨by norm_num, by norm_num, by norm_num, by norm_num,
    (claim_C7_rho_models_agree 100000 10 10 288 (by norm_num) (by norm_num)
      (by norm_num) (by norm_num) rfl).2⟩

/-- C9: when the optional second measurement keys are missing,
`ModelChain.v_wind_hub` inserts a `None`-valued `v_wind_2` key and
`ModelChain.rho_hub` a `None`-valued `temp_air_2` key into both the caller's
`weather` and `data_height` mappings (the first two components of the embedded
results model those mappings after the call). -/
theorem claim_C9_hub_methods_insert_missing_keys (mc : ModelChain)
    (w : Weather) (dh : DataHeight) (hw : w.v_wind_2 = none)
    (ht : w.temp_air_2 = none) :
    (v_wind_hub mc w dh).1.v_wind_2 = some none ∧
    (v_wind_hub mc w dh).2.1.v_wind_2 = some none ∧
    (rho_hub mc w dh).1.temp_air_2 = some none ∧
    (rho_hub mc w dh).2.1.temp_air_2 = some none := by
  refine ⟨?_, ?_, ?_, ?_⟩ <;> simp [v_wind_hub, rho_hub, hw, ht]

/-- Witness for C9 on `demo_weather`/`demo_heights`, which carry no
`v_wind_2`/`temp_air_2` keys. -/
theorem claim_C9_witness :
    demo_weather.v_wind_2 = none ∧ demo_weather.temp_air_2 = none ∧
    (v_wind_hub hellman_chain demo_weather demo_heights).1.v_wind_2 =
      some none ∧
    (v_wind_hub hellman_chain demo_weather demo_heights).2.1.v_wind_2 =
      some none ∧
    (rho_hub hellman_chain demo_weather demo_heights).1.temp_air_2 =
      some none ∧
    (rho_hub hellman_chain demo_weather demo_heights).2.1.temp_air_2 =
      some none :=
  ⟨rfl, rfl,
    (claim_C9_hub_methods_insert_missing_keys hellman_chain demo_weather
      demo_heights rfl rfl).1,
    (claim_C9_hub_methods_insert_missing_keys hellman_chain demo_weather
      demo_heights rfl rfl).2.1,
    (claim_C9_hub_methods_insert_missing_keys hellman_chain demo_weather
      demo_heights rfl rfl).2.2.1,
    (claim_C9_hub_methods_insert_missing_keys hellman_chain demo_weather
      demo_heights rfl rfl).2.2.2⟩

/-- If `turbine_power_output` raises, `apply_power_stage` leaves the chain
unchanged. -/
theorem apply_power_stage_error_keeps_output (mc : ModelChain)
    (wind_speed : List ℝ) (w2 : Weather) (dh2 : DataHeight)
    (density : Option (List ℝ)) (e : PyErr)
    (h : (apply_power_stage mc wind_speed w2 dh2 density).2.2.2 = some e) :
    (apply_power_stage mc wind_speed w2 dh2 density).1.power_output =
      mc.power_output := by
  unfold apply_power_stage at h ⊢
  rcases ht : turbine_power_output mc wind_speed density with e2 | out
  · rfl
  · rw [ht] at h
    exact Option.noConfusion h

/-- If the later pipeline stages raise, `run_model_rest` leaves the chain
unchanged. -/
theorem run_model_rest_error_keeps_output (mc : ModelChain)
    (wind_speed : List ℝ) (w1 : Weather) (dh1 : DataHeight) (e : PyErr)
    (h : (run_model_rest mc wind_speed w1 dh1).2.2.2 = some e) :
    (run_model_rest mc wind_speed w1 dh1).1.power_output = mc.power_output := by
  unfold run_model_rest at h ⊢
  by_cases hc : mc.power_output_model = "p_values" ∧ mc.density_corr = false
  · rw [if_pos hc] at h ⊢
    exact apply_power_stage_error_keeps_output mc wind_speed w1 dh1 none e h
  · rw [if_neg hc] at h ⊢
    rcases h2 : rho_hub mc w1 dh1 with ⟨w2, dh2, e2 | d⟩
    · rfl
    · rw [h2] at h
      exact apply_power_stage_error_keeps_output mc wind_speed w2 dh2
        (some d) e h

/-- C5: whenever any stage of `run_model` raises (wind-speed resolution,
density resolution, or power-output evaluation), the chain's `power_output`
attribute is unchanged — the only write to it is the final statement of the
method, which is not reached on an exception. -/
theorem claim_C5_run_model_error_keeps_output (mc : ModelChain) (w : Weather)
    (dh : DataHeight) (e : PyErr)
    (h : (run_model mc w dh).2.2.2 = some e) :
    (run_model mc w dh).1.power_output = mc.power_output := by
  unfold run_model at h ⊢
  rcases h1 : v_wind_hub mc w dh with ⟨w1, dh1, e1 | ws⟩
  · rfl
  · rw [h1] at h
    exact run_model_rest_error_keeps_output mc ws w1 dh1 e h

/-- Witness for C5: a chain with an invalid `wind_model` fails in the
wind-speed stage and keeps its previously stored `power_output`. -/
theorem claim_C5_witness :
    (run_model bogus_chain demo_weather demo_heights).2.2.2 =
      some .valueErr ∧
    (run_model bogus_chain demo_weather demo_heights).1.power_output =
      bogus_chain.power_output :=
  ⟨by rfl,
    claim_C5_run_model_error_keeps_output bogus_chain demo_weather
      demo_heights .valueErr (by rfl)⟩

/-- C1: with `wind_model` set to `hellman` and `hellman_exp` left unset, the
`ModelChain` call site passes `weather[z0]` positionally into the
`hellman_exp` parameter of `v_wind_hellman` (and `self.hellman_exp` into
`z_0`), so the roughness length itself is used as the exponent.  At hub height
20 m, measurement height 10 m, roughness length z0 = 1 m and wind speed
10 m/s the code yields `10·(20/10)^1 = 20`, whereas the claimed formula
`v·(h_hub/h_data)^(1/ln(h_hub/z0))` yields `10·2^(1/ln 20) ≠ 20`. -/
theorem claim_C1_hellman_exponent_swapped :
    (v_wind_hub hellman_chain demo_weather demo_heights).2.2 =
      .ok [(20 : ℝ)] ∧
    (10 : ℝ) * ((20 : ℝ) / 10) ^ ((1 : ℝ) / Real.log ((20 : ℝ) / 1)) ≠ 20 := by
  constructor
  · simp only [v_wind_hub, v_wind_hub_core, v_wind_hellman, hellman_chain,
      demo_weather, demo_heights, demo_turbine]
    norm_num [Real.rpow_one]
    intro hcon
    exact absurd hcon (by decide)
  · intro hcontra
    have h1 : Real.log ((20 : ℝ) / 1) = Real.log 20 := by norm_num
    have hlog : (1 : ℝ) < Real.log 20 := by
      rw [Real.lt_log_iff_exp_lt (by norm_num : (0 : ℝ) < 20)]
      calc Real.exp 1 < 2.7182818286 := Real.exp_one_lt_d9
        _ < 20 := by norm_num
    have hlogpos : (0 : ℝ) < Real.log 20 := lt_trans one_pos hlog
    have hexp : (1 : ℝ) / Real.log 20 < 1 := (div_lt_one hlogpos).mpr hlog
    have hbase : ((20 : ℝ) / 10) = 2 := by norm_num
    rw [hbase, h1] at hcontra
    have hlt : (2 : ℝ) ^ ((1 : ℝ) / Real.log 20) < 2 ^ (1 : ℝ) :=
      (Real.rpow_lt_rpow_left_iff (by norm_num : (1 : ℝ) < 2)).mpr hexp
    rw [Real.rpow_one] at hlt
    nlinarith [hlt]

/-- C10: `interpolate_P_curve` evaluates with `left=0, right=0`, so a wind
speed outside the density-shifted domain of the power curve — in particular
one above the corrected curve's maximum — yields power 0, not the boundary
power value. -/
theorem claim_C10_density_corrected_zero_outside (vs rho : List ℝ)
    (pts : List (ℚ × ℚ)) (i : ℕ) (v r : ℝ) (hv : vs[i]? = some v)
    (hr : rho[i]? = some r)
    (h : (∀ q ∈ density_corrected_speeds pts r, q.1 < v) ∨
         (∀ q ∈ density_corrected_speeds pts r, v < q.1)) :
    (interpolate_P_curve vs rho pts)[i]? = some 0 := by
  have hi : i < vs.length := (List.getElem?_eq_some.mp hv).1
  have hgv : vs.getD i 0 = v := by rw [List.getD_eq_getElem?_getD, hv]; rfl
  have hgr : rho.getD i 0 = r := by rw [List.getD_eq_getElem?_getD, hr]; rfl
  unfold interpolate_P_curve
  rw [List.getElem?_map, List.getElem?_range hi]
  simp only [Option.map_some']
  rw [hgv, hgr]
  rcases h with h | h
  · rw [np_interp_of_all_lt v 0 0 _ h]
  · rcases hd : density_corrected_speeds pts r with _ | ⟨q, tl⟩
    · rfl
    · rw [np_interp_of_all_gt v 0 0 (q :: tl) (List.cons_ne_nil _ _)
        (hd ▸ h)]

/-- Witness for C10: at density 1.225 kg/m³ the shift factor is 1, the
corrected domain is `{4, 10}`, and the wind speed 20 above its maximum gives
power 0 (not the boundary value 500). -/
theorem claim_C10_witness :
    (([(20 : ℝ)])[0]? = some (20 : ℝ)) ∧ (([(1.225 : ℝ)])[0]? = some (1.225 : ℝ)) ∧
    (∀ q ∈ density_corrected_speeds [((4 : ℚ), 100), (10, 500)] (1.225 : ℝ),
      q.1 < 20) ∧
    (interpolate_P_curve [(20 : ℝ)] [(1.225 : ℝ)]
      [((4 : ℚ), 100), (10, 500)])[0]? = some 0 := by
  have hq : ∀ q ∈ density_corrected_speeds [((4 : ℚ), 100), (10, 500)]
      (1.225 : ℝ), q.1 < 20 := by
    intro q hq
    simp only [density_corrected_speeds, List.mem_map, List.mem_cons,
      List.mem_singleton] at hq
    obtain ⟨pt, hpt, rfl⟩ := hq
    have hone : (1.225 : ℝ) / 1.225 = 1 := by norm_num
    rcases hpt with rfl | rfl | hfalse
    · rw [hone, Real.one_rpow]
      norm_num
    · rw [hone, Real.one_rpow]
      norm_num
    · exact absurd hfalse (List.not_mem_nil pt)
  exact ⟨rfl, rfl, hq,
    claim_C10_density_corrected_zero_outside [(20 : ℝ)] [(1.225 : ℝ)]
      [((4 : ℚ), 100), (10, 500)] 0 20 1.225 rfl rfl (Or.inl hq)⟩
